import Mathlib

/-!
Shallow embedding of `src/buildbot_nix/gitea_projects.py` (buildbot-nix Gitea
backend): project discovery, caching, webhook reconciliation and the reload
build step.  Network I/O, the secret store and the filesystem are passed in as
explicit environments; Python exceptions are modelled by `Except PyErr`.
-/

namespace BuildbotNix

/-- Kinds of Python exceptions relevant to `gitea_projects.py`: `OSError`
(network failures raised by `http_request` / `paginated_github_request`,
the only kind caught by the `except OSError` in `refresh_projects`),
`KeyError` (missing dict key), and a missing-secret failure raised by
`read_secret_file`. -/
inductive PyErr where
  | osError
  | keyError
  | secretMissing
deriving DecidableEq

/-- Environment for the Secret Provider: maps a secret name to its value,
`none` when the secret is absent. -/
structure SecretStore where
  secrets : String → Option String

/-- Modelled from the spec: `read_secret_file` lives in `buildbot_nix/secrets.py`,
which is not under `src/`.  Per the spec's Secret Provider interface,
`read(secretName) -> string` returns the named secret and fails if the named
secret is absent. -/
def read_secret_file (store : SecretStore) (name : String) : Except PyErr String :=
  match store.secrets name with
  | some s => Except.ok s
  | none => Except.error PyErr.secretMissing

/-- Embeds the `GiteaConfig` dataclass (source lines 37-52).  The
`project_cache_file` path is kept as a string; the file's contents are part of
the explicit state threaded through `reload_projects`. -/
structure GiteaConfig where
  instance_url : String
  oauth_id : Option String
  oauth_secret_name : String := "gitea-oauth-secret"
  token_secret_name : String := "gitea-token"
  webhook_secret_name : String := "gitea-webhook-secret"
  project_cache_file : String := "gitea-project-cache.json"
  topic : Option String := some "build-with-buildbot"
deriving DecidableEq

/-- Embeds `GiteaConfig.token` (source lines 51-52): reads the API token secret. -/
def GiteaConfig.token (store : SecretStore) (config : GiteaConfig) : Except PyErr String :=
  read_secret_file store config.token_secret_name

/-- One repository record as returned by the hosting API (the `data` dict of a
`GiteaProject`).  `topics := none` models the absence of the `"topics"` key,
which is not present in the base `/user/repos` listing and is spliced in by
`refresh_projects` (source line 318). -/
structure RepoRecord where
  full_name : String
  owner_login : String
  name : String
  ssh_url : String
  default_branch : String
  admin : Bool
  topics : Option (List String)
deriving DecidableEq

/-- Embeds the `GiteaProject.topics` property (source lines 100-103):
`self.data["topics"]`, a `KeyError` when the key is absent. -/
def GiteaProject.topics (data : RepoRecord) : Except PyErr (List String) :=
  match data.topics with
  | some ts => Except.ok ts
  | none => Except.error PyErr.keyError

/-- Embeds the `config` dict built by `create_project_hook` (source lines 268-273). -/
structure HookConfigDict where
  url : String
  content_type : String
  insecure_ssl : String
  secret : String
deriving DecidableEq

/-- Embeds the `data` dict (the hook-creation POST payload) built by
`create_project_hook` (source lines 274-280). -/
structure HookData where
  name : String
  active : Bool
  events : List String
  config : HookConfigDict
  hook_type : String
deriving DecidableEq

/-- The `config` dict of the hook-creation payload (source lines 268-273):
its `url` is the direct concatenation `webhook_url + "change_hook/gitea"`. -/
def hook_config (webhook_url webhook_secret : String) : HookConfigDict :=
  { url := webhook_url ++ "change_hook/gitea"
    content_type := "json"
    insecure_ssl := "0"
    secret := webhook_secret }

/-- The hook-creation payload (source lines 274-280). -/
def hook_data (webhook_url webhook_secret : String) : HookData :=
  { name := "web"
    active := true
    events := ["push", "pull_request"]
    config := hook_config webhook_url webhook_secret
    hook_type := "gitea" }

/-- The string `create_project_hook` compares each existing hook's
`config.url` against (source line 287): the same direct concatenation,
recomputed at the comparison site. -/
def hook_compare_url (webhook_url : String) : String :=
  webhook_url ++ "change_hook/gitea"

/-- Environment for `create_project_hook`: the paginated hook-list fetch
(existing hooks represented by their `config.url` strings, the only field the
source inspects) and the result of the hook-creation POST. -/
structure HookEnv where
  fetchHooks : String → Except PyErr (List String)
  postHook : String → Except PyErr Unit

/-- Embeds `create_project_hook` (source lines 257-296).  The `for hook in
hooks` loop with early `return` on a matching `config.url` is `List.any`.
The source returns `None`; here the returned value records whether a creation
POST was issued, and with which payload (`none` = idempotent no-op). -/
def create_project_hook (henv : HookEnv)
    (repo_name _token webhook_url webhook_secret : String) :
    Except PyErr (Option HookData) := do
  let hooks ← henv.fetchHooks repo_name
  let data := hook_data webhook_url webhook_secret
  if hooks.any (fun u => u == hook_compare_url webhook_url) then
    pure none
  else do
    let _ ← henv.postHook repo_name
    pure (some data)

/-- Gitea's server-side effect of a successful hook-creation POST: the new
hook, carrying the payload's `config.url`, is appended to the repository's
hook list (no POST issued when the payload is `none`). -/
def gitea_apply_post (hooks : List String) (payload : Option HookData) : List String :=
  match payload with
  | none => hooks
  | some p => hooks ++ [p.config.url]

/-- Environment for one refresh run: the `/user/repos` paginated listing, the
per-repository `/repos/{owner}/{name}/topics` request, the hook environment,
and whether the final `atomic_write_file` succeeds. -/
structure ReloadEnv where
  listing : Except PyErr (List RepoRecord)
  fetchTopics : String → String → Except PyErr (List String)
  hookEnv : HookEnv
  write_ok : Bool

/-- One iteration of the `refresh_projects` loop body (source lines 305-321):
skip a repository without admin permission (with a diagnostic log message);
otherwise read the token and fetch topics inside `try:`, splice the topics in
and append on success, `pass` on `OSError`, propagate any other exception. -/
def refresh_step (store : SecretStore) (config : GiteaConfig) (env : ReloadEnv)
    (repos : List RepoRecord) (repo : RepoRecord) : Except PyErr (List RepoRecord) :=
  if repo.admin = false then
    Except.ok repos
  else
    match (do
      let _token ← read_secret_file store config.token_secret_name
      env.fetchTopics repo.owner_login repo.name : Except PyErr (List String)) with
    | Except.ok topics => Except.ok (repos ++ [{ repo with topics := some topics }])
    | Except.error PyErr.osError => Except.ok repos
    | Except.error e => Except.error e

/-- Embeds `refresh_projects` (source lines 299-323): read the token (used in
the top-level paginated listing request), enumerate, then fold the loop body
over the listing. -/
def refresh_projects (store : SecretStore) (config : GiteaConfig) (env : ReloadEnv) :
    Except PyErr (List RepoRecord) := do
  let _token ← read_secret_file store config.token_secret_name
  let listing ← env.listing
  listing.foldlM (refresh_step store config env) []

/-- One iteration of the hook loop in `ReloadGiteaProjects.reload_projects`
(source lines 224-231): evaluate `self.config.token()` and call
`create_project_hook` for one repository. -/
def hookStep (store : SecretStore) (config : GiteaConfig) (henv : HookEnv)
    (webhook_url webhook_secret : String) (repo : RepoRecord) :
    Except PyErr (Option HookData) := do
  let token ← read_secret_file store config.token_secret_name
  create_project_hook henv repo.full_name token webhook_url webhook_secret

/-- The hook loop of `reload_projects` (source lines 224-231).  There is no
`try`/`except` around `create_project_hook`, so the first failing iteration
aborts the loop.  Returns the `full_name`s for which `create_project_hook`
was invoked, and the aborting exception if any. -/
def hookLoop (store : SecretStore) (config : GiteaConfig) (henv : HookEnv)
    (webhook_url webhook_secret : String) :
    List RepoRecord → List String × Option PyErr
  | [] => ([], none)
  | repo :: rest =>
    match hookStep store config henv webhook_url webhook_secret repo with
    | Except.ok _ =>
      let r := hookLoop store config henv webhook_url webhook_secret rest
      (repo.full_name :: r.1, r.2)
    | Except.error e => ([repo.full_name], some e)

instance {ε α : Type} [DecidableEq ε] [DecidableEq α] : DecidableEq (Except ε α) :=
  fun a b =>
    match a, b with
    | Except.ok x, Except.ok y =>
      if h : x = y then isTrue (by rw [h]) else isFalse (by intro hc; cases hc; exact h rfl)
    | Except.error x, Except.error y =>
      if h : x = y then isTrue (by rw [h]) else isFalse (by intro hc; cases hc; exact h rfl)
    | Except.ok _, Except.error _ => isFalse (by intro hc; cases hc)
    | Except.error _, Except.ok _ => isFalse (by intro hc; cases hc)

/-- Observable outcome of one `reload_projects` run: the cache file contents
afterwards (as the parsed list; `none` = file absent), which repositories had
`create_project_hook` invoked, whether `atomic_write_file` was reached, and
the overall result of the background thread. -/
structure ReloadOutcome where
  cacheFile : Option (List RepoRecord)
  hooksReconciled : List String
  writeAttempted : Bool
  result : Except PyErr Unit
deriving DecidableEq

/-- Embeds `ReloadGiteaProjects.reload_projects` (source lines 221-233):
refresh, then the hook loop, then `atomic_write_file(cache_file,
json.dumps(repos))` — note `repos` is written as collected, unsorted.
Modelled from the spec: `atomic_write_file` (in `buildbot_nix/common.py`, not
under `src/`) replaces the file contents atomically on success, and on any
failure before the atomic replace leaves the prior contents intact. -/
def reload_projects (store : SecretStore) (config : GiteaConfig) (env : ReloadEnv)
    (webhook_url webhook_secret : String) (cache0 : Option (List RepoRecord)) :
    ReloadOutcome :=
  match refresh_projects store config env with
  | Except.error e =>
    { cacheFile := cache0, hooksReconciled := [], writeAttempted := false
      result := Except.error e }
  | Except.ok repos =>
    match hookLoop store config env.hookEnv webhook_url webhook_secret repos with
    | (ns, some e) =>
      { cacheFile := cache0, hooksReconciled := ns, writeAttempted := false
        result := Except.error e }
    | (ns, none) =>
      if env.write_ok then
        { cacheFile := some repos, hooksReconciled := ns, writeAttempted := true
          result := Except.ok () }
      else
        { cacheFile := cache0, hooksReconciled := ns, writeAttempted := true
          result := Except.error PyErr.osError }

/-- Embeds `util.SUCCESS` (buildbot result code 0). -/
def util_SUCCESS : Nat := 0

/-- Embeds `util.FAILURE` (buildbot result code 2). -/
def util_FAILURE : Nat := 2

/-- Observable outcome of `ReloadGiteaProjects.run`: whether
`os.kill(os.getpid(), signal.SIGHUP)` was executed, the `(name, content)` log
streams added via `addLog`, and the step result code. -/
structure RunOutcome where
  signalSent : Bool
  logStreams : List (String × String)
  stepResult : Nat
deriving DecidableEq

/-- Embeds `ReloadGiteaProjects.run` (source lines 235-254).  `background` is
the result of `reload_projects` on the worker thread; `tracebackOf` models
`failure.getTraceback()`.  `error_msg` starts as `""` and `error_cb` appends
the traceback and maps the deferred to `util.FAILURE`. -/
def ReloadGiteaProjects.run (background : Except PyErr Unit)
    (tracebackOf : PyErr → String) : RunOutcome :=
  let error_msg : String :=
    match background with
    | Except.ok _ => ""
    | Except.error e => "" ++ tracebackOf e
  let res : Nat :=
    match background with
    | Except.ok _ => util_SUCCESS
    | Except.error _ => util_FAILURE
  if res == util_SUCCESS then
    { signalSent := true, logStreams := [], stepResult := util_SUCCESS }
  else
    { signalSent := false
      logStreams := [("log", "Failed to reload project list: " ++ error_msg)]
      stepResult := util_FAILURE }

/-- Lexicographic code-point comparison of character lists: exactly Python's
string comparison, which `sorted(..., key=lambda x: x["full_name"])` uses. -/
def charListLe : List Char → List Char → Bool
  | [], _ => true
  | _ :: _, [] => false
  | a :: as, b :: bs =>
    if a < b then true
    else if b < a then false
    else charListLe as bs

/-- Python string `<=`, computed on the character lists of the strings. -/
def strLe (a b : String) : Bool := charListLe a.data b.data

/-- The sort order used by `load_projects` (source line 170):
`key=lambda x: x["full_name"]` under Python's lexicographic string order. -/
def repoLE (a b : RepoRecord) : Prop := strLe a.full_name b.full_name = true

instance : DecidableRel repoLE :=
  fun a b => inferInstanceAs (Decidable (strLe a.full_name b.full_name = true))

instance : IsTotal RepoRecord repoLE := by
  have key : ∀ as bs : List Char, charListLe as bs = true ∨ charListLe bs as = true := by
    intro as
    induction as with
    | nil =>
      intro bs
      exact Or.inl rfl
    | cons a as ih =>
      intro bs
      cases bs with
      | nil => exact Or.inr rfl
      | cons b bs =>
        by_cases h1 : a < b
        · exact Or.inl (by simp [charListLe, h1])
        · by_cases h2 : b < a
          · exact Or.inr (by simp [charListLe, h2])
          · rcases ih bs with h | h
            · exact Or.inl (by simp [charListLe, h1, h2, h])
            · exact Or.inr (by simp [charListLe, h1, h2, h])
  exact ⟨fun a b => key a.full_name.data b.full_name.data⟩

instance : IsTrans RepoRecord repoLE := by
  have key : ∀ as bs cs : List Char, charListLe as bs = true → charListLe bs cs = true →
      charListLe as cs = true := by
    intro as
    induction as with
    | nil =>
      intro bs cs _ _
      rfl
    | cons a as ih =>
      intro bs cs hab hbc
      cases bs with
      | nil => exact absurd hab (by simp [charListLe])
      | cons b bs =>
        cases cs with
        | nil => exact absurd hbc (by simp [charListLe])
        | cons c cs =>
          by_cases h1 : a < b
          · by_cases h2 : b < c
            · simp [charListLe, lt_trans h1 h2]
            · by_cases h3 : c < b
              · exact absurd hbc (by simp [charListLe, h2, h3])
              · have hac : a < c := lt_of_lt_of_le h1 (not_lt.mp h3)
                simp [charListLe, hac]
          · by_cases h1' : b < a
            · exact absurd hab (by simp [charListLe, h1, h1'])
            · by_cases h2 : b < c
              · have hac : a < c := lt_of_le_of_lt (not_lt.mp h1') h2
                simp [charListLe, hac]
              · by_cases h3 : c < b
                · exact absurd hbc (by simp [charListLe, h2, h3])
                · have hab2 : a = b := le_antisymm (not_lt.mp h1') (not_lt.mp h1)
                  have hbc2 : b = c := le_antisymm (not_lt.mp h3) (not_lt.mp h2)
                  subst hab2
                  subst hbc2
                  simp only [charListLe, lt_irrefl, if_false] at hab hbc ⊢
                  exact ih bs cs hab hbc
  exact ⟨fun a b c hab hbc => key a.full_name.data b.full_name.data c.full_name.data hab hbc⟩

/-- The filter predicate of `load_projects` (source lines 174-175):
`self.config.topic is not None and self.config.topic in project.topics`.
Python's `and` short-circuits, so the `topics` lookup (which can raise
`KeyError`) is only evaluated when a topic is configured. -/
def load_pred (topic : Option String) (repo : RepoRecord) : Except PyErr Bool :=
  match topic with
  | none => Except.ok false
  | some t => do
    let ts ← GiteaProject.topics repo
    pure (ts.contains t)

/-- Left-to-right fallible `filter`, as forced by `list(filter(...))` over a
predicate that can raise. -/
def filterE (p : RepoRecord → Except PyErr Bool) :
    List RepoRecord → Except PyErr (List RepoRecord)
  | [] => Except.ok []
  | x :: xs => do
    let b ← p x
    let rest ← filterE p xs
    pure (if b then x :: rest else rest)

/-- Embeds `GiteaBackend.load_projects` (source lines 164-178).  `cacheFile`
is the parsed JSON document of the cache file, `none` when the file does not
exist.  Python's `sorted` is a stable sort by the `full_name` key; so is
`List.insertionSort repoLE`, hence they agree.  The returned `GiteaProject`
wrappers are represented by their underlying records. -/
def GiteaBackend.load_projects (config : GiteaConfig)
    (cacheFile : Option (List RepoRecord)) : Except PyErr (List RepoRecord) :=
  match cacheFile with
  | none => Except.ok []
  | some repos => filterE (load_pred config.topic) (List.insertionSort repoLE repos)

/-- Embeds the `GiteaBackend` object: its config and the webhook secret read
eagerly in `__init__`. -/
structure GiteaBackend where
  config : GiteaConfig
  webhook_secret : String
deriving DecidableEq

/-- Embeds `GiteaBackend.__init__` (source lines 114-116): the only secret
read at construction time is the webhook secret. -/
def GiteaBackend.init (store : SecretStore) (config : GiteaConfig) :
    Except PyErr GiteaBackend :=
  match read_secret_file store config.webhook_secret_name with
  | Except.ok s => Except.ok { config := config, webhook_secret := s }
  | Except.error e => Except.error e

/-- Builds a repository record with the fields that drive `refresh_projects`. -/
def mkRepo (fn ow nm : String) (ad : Bool) : RepoRecord :=
  { full_name := fn, owner_login := ow, name := nm, ssh_url := ""
    default_branch := "main", admin := ad, topics := none }

/-- Hook environment for a single repository whose current hook list is
`hooks` and whose creation POST succeeds. -/
def single_repo_hook_env (hooks : List String) : HookEnv :=
  { fetchHooks := fun _ => Except.ok hooks, postHook := fun _ => Except.ok () }

/-- Number of hook-creation POSTs recorded by one `create_project_hook`
return value. -/
def hook_posts (p : Option HookData) : Nat :=
  match p with
  | some _ => 1
  | none => 0

/-- Result of the second of two successive `create_project_hook` invocations
for the same repository and callback URL, where a successful first-run POST
registers its payload URL on the server (`gitea_apply_post`). -/
def second_run_result (hooks0 : List String) (repo_name token webhook_url webhook_secret : String) :
    Except PyErr (Option HookData) :=
  match create_project_hook (single_repo_hook_env hooks0) repo_name token webhook_url webhook_secret with
  | Except.ok p1 =>
    create_project_hook (single_repo_hook_env (gitea_apply_post hooks0 p1))
      repo_name token webhook_url webhook_secret
  | Except.error e => Except.error e

/-- Total number of hook-creation POSTs issued across two successive
`create_project_hook` invocations. -/
def reconcile_twice_posts (hooks0 : List String)
    (repo_name token webhook_url webhook_secret : String) : Nat :=
  match create_project_hook (single_repo_hook_env hooks0) repo_name token webhook_url webhook_secret with
  | Except.ok p1 =>
    match second_run_result hooks0 repo_name token webhook_url webhook_secret with
    | Except.ok p2 => hook_posts p1 + hook_posts p2
    | Except.error _ => hook_posts p1
  | Except.error _ => 0

/-- Secret store holding both required secrets. -/
def storeFull : SecretStore :=
  { secrets := fun n =>
      if n = "gitea-token" then some "tok"
      else if n = "gitea-webhook-secret" then some "whs"
      else none }

/-- Secret store missing the API token secret. -/
def storeNoToken : SecretStore :=
  { secrets := fun n => if n = "gitea-webhook-secret" then some "whs" else none }

/-- Secret store missing the webhook signing secret. -/
def storeNoWebhook : SecretStore :=
  { secrets := fun n => if n = "gitea-token" then some "tok" else none }

/-- Configuration with the default secret names and default topic filter. -/
def config0 : GiteaConfig :=
  { instance_url := "https://gitea.example", oauth_id := none }

/-- Environment whose top-level repository listing fails. -/
def env_fail : ReloadEnv :=
  { listing := Except.error PyErr.osError
    fetchTopics := fun _ _ => Except.ok []
    hookEnv := single_repo_hook_env []
    write_ok := true }

/-- Trivial environment: empty listing, everything succeeds. -/
def env_trivial : ReloadEnv :=
  { listing := Except.ok []
    fetchTopics := fun _ _ => Except.ok []
    hookEnv := single_repo_hook_env []
    write_ok := true }

/-- Full names of a cache-file state, for order comparisons. -/
def cache_names (o : Option (List RepoRecord)) : Option (List String) :=
  o.map (List.map RepoRecord.full_name)

/-- A record as enriched by `refresh_projects` with the default topic. -/
def tag (r : RepoRecord) : RepoRecord := { r with topics := some ["build-with-buildbot"] }

/-- A record as enriched by `refresh_projects` with an empty topic list. -/
def tagE (r : RepoRecord) : RepoRecord := { r with topics := some [] }

/-- Admin repository `b/repo`. -/
def repoB : RepoRecord := mkRepo "b/repo" "b" "repo" true

/-- Admin repository `a/repo`. -/
def repoA : RepoRecord := mkRepo "a/repo" "a" "repo" true

/-- Admin repository `c/repo`. -/
def repoC : RepoRecord := mkRepo "c/repo" "c" "repo" true

/-- Admin repository `a/x`. -/
def repoAX : RepoRecord := mkRepo "a/x" "a" "x" true

/-- Admin repository `b/y`. -/
def repoBY : RepoRecord := mkRepo "b/y" "b" "y" true

/-- Environment for the sort-order scenario: the listing returns
`b/repo, a/repo, c/repo` in that (unsorted) order, topic fetches succeed,
every repository already has the desired hook, and the write succeeds. -/
def env_c1 : ReloadEnv :=
  { listing := Except.ok [repoB, repoA, repoC]
    fetchTopics := fun _ _ => Except.ok ["build-with-buildbot"]
    hookEnv := single_repo_hook_env [hook_compare_url "https://cb.example/"]
    write_ok := true }

/-- Environment where fetching the existing hook list fails for `a/x` only
and everything else succeeds. -/
def env_c2 : ReloadEnv :=
  { listing := Except.ok [repoAX, repoBY]
    fetchTopics := fun _ _ => Except.ok []
    hookEnv :=
      { fetchHooks := fun n => if n = "a/x" then Except.error PyErr.osError else Except.ok []
        postHook := fun _ => Except.ok () }
    write_ok := true }

/-- The Boolean topic test applied by the load filter to a record whose
`topics` key is present: `config.topic in project.topics`. -/
def topic_filter (t : String) (r : RepoRecord) : Bool :=
  (r.topics.getD []).contains t

/-- The environment produces only network-style failures: neither the listing
nor a topic fetch ever reports a missing secret (secrets are not read by the
network layer). -/
def NetworkOnly (env : ReloadEnv) : Prop :=
  env.listing ≠ Except.error PyErr.secretMissing ∧
  ∀ o n, env.fetchTopics o n ≠ Except.error PyErr.secretMissing

/-- A record enriched with an explicit topic list. -/
def tagO (r : RepoRecord) (ts : List String) : RepoRecord :=
  { r with topics := some ts }

/-- Cached record `b/p` tagged with the default topic. -/
def cacheB : RepoRecord := tagO (mkRepo "b/p" "b" "p" true) ["build-with-buildbot"]

/-- Cached record `a/p` tagged with the default topic. -/
def cacheA : RepoRecord := tagO (mkRepo "a/p" "a" "p" true) ["build-with-buildbot"]

/-- Cached record `c/p` tagged with a different topic. -/
def cacheC : RepoRecord := tagO (mkRepo "c/p" "c" "p" true) ["other"]

/-- Configuration with no required topic. -/
def config_no_topic : GiteaConfig :=
  { instance_url := "https://gitea.example", oauth_id := none, topic := none }

/-- Admin repositories `o1/r1` through `o5/r5`. -/
def repo1 : RepoRecord := mkRepo "o1/r1" "o1" "r1" true

/-- Second of the five admin repositories. -/
def repo2 : RepoRecord := mkRepo "o2/r2" "o2" "r2" true

/-- Third of the five admin repositories (its topic lookup will fail). -/
def repo3 : RepoRecord := mkRepo "o3/r3" "o3" "r3" true

/-- Fourth of the five admin repositories. -/
def repo4 : RepoRecord := mkRepo "o4/r4" "o4" "r4" true

/-- Fifth of the five admin repositories. -/
def repo5 : RepoRecord := mkRepo "o5/r5" "o5" "r5" true

/-- Non-admin repository `n/a`. -/
def repoNA : RepoRecord := mkRepo "n/a" "n" "a" false

/-- Environment with five admin-eligible repositories where the topic lookup
fails for `o3/r3` only; hooks are already present; the write succeeds. -/
def env_c7 : ReloadEnv :=
  { listing := Except.ok [repo1, repo2, repo3, repo4, repo5]
    fetchTopics := fun o _ =>
      if o = "o3" then Except.error PyErr.osError else Except.ok ["t"]
    hookEnv := single_repo_hook_env [hook_compare_url "https://cb.example/"]
    write_ok := true }

/-- Environment listing one admin repository and one non-admin repository. -/
def env_c8 : ReloadEnv :=
  { listing := Except.ok [repoAX, repoNA]
    fetchTopics := fun _ _ => Except.ok []
    hookEnv := single_repo_hook_env [hook_compare_url "https://cb.example/"]
    write_ok := true }

/-- Trivial traceback rendering for concrete runs. -/
def tb0 : PyErr → String := fun _ => ""

section Theorems

/-- C10: the URL `create_project_hook` compares existing hooks against
(source line 287) and the URL it places in the creation payload (source
line 269) are the identical string, the direct concatenation
`webhook_url ++ "change_hook/gitea"` with no path separator inserted; a base
URL without a trailing slash yields that concatenated URL verbatim. -/
theorem c10_hook_url_agreement (webhook_url webhook_secret : String) :
    hook_compare_url webhook_url = (hook_data webhook_url webhook_secret).config.url ∧
    hook_compare_url webhook_url = webhook_url ++ "change_hook/gitea" ∧
    hook_compare_url "https://buildbot.example" =
      "https://buildbot.examplechange_hook/gitea" :=
  ⟨rfl, rfl, rfl⟩

/-- C5: the SIGHUP configuration-reload signal is sent if and only if the
background `reload_projects` run completes without an unhandled error; on an
unhandled error no signal is sent, the full failure detail goes to a single
log stream named `log`, and the step returns `util.FAILURE`; on success no
log stream is added and the step returns `util.SUCCESS`. -/
theorem c5_signal_iff_background_success (store : SecretStore) (config : GiteaConfig)
    (env : ReloadEnv) (webhook_url webhook_secret : String)
    (cache0 : Option (List RepoRecord)) (tb : PyErr → String) :
    ((ReloadGiteaProjects.run
        (reload_projects store config env webhook_url webhook_secret cache0).result tb).signalSent
          = true
      ↔ (reload_projects store config env webhook_url webhook_secret cache0).result
          = Except.ok ()) ∧
    (∀ e, (reload_projects store config env webhook_url webhook_secret cache0).result
          = Except.error e →
      ReloadGiteaProjects.run
          (reload_projects store config env webhook_url webhook_secret cache0).result tb
        = { signalSent := false
            logStreams := [("log", "Failed to reload project list: " ++ tb e)]
            stepResult := util_FAILURE }) ∧
    ((reload_projects store config env webhook_url webhook_secret cache0).result
          = Except.ok () →
      ReloadGiteaProjects.run
          (reload_projects store config env webhook_url webhook_secret cache0).result tb
        = { signalSent := true, logStreams := [], stepResult := util_SUCCESS }) := by
  generalize (reload_projects store config env webhook_url webhook_secret cache0).result = bg
  cases bg with
  | ok u =>
    cases u
    refine ⟨by simp [ReloadGiteaProjects.run, util_SUCCESS], ?_, ?_⟩
    · intro e he
      cases he
    · intro _
      rfl
  | error e =>
    refine ⟨?_, ?_, ?_⟩
    · constructor
      · intro h
        simp [ReloadGiteaProjects.run, util_SUCCESS, util_FAILURE] at h
      · intro h
        cases h
    · intro e' he'
      cases he'
      rfl
    · intro h
      cases h

/-- C5 witness: concrete failing run (listing unavailable): no signal, one
`log` stream with the failure detail, result `FAILURE`; and concrete
successful run: signal sent. -/
theorem c5_witness :
    (ReloadGiteaProjects.run
        (reload_projects storeFull config0 env_fail "https://cb.example/" "whs" none).result
        (fun _ => "Traceback") =
      { signalSent := false
        logStreams := [("log", "Failed to reload project list: " ++ "Traceback")]
        stepResult := util_FAILURE }) ∧
    (ReloadGiteaProjects.run
        (reload_projects storeFull config0 env_trivial "https://cb.example/" "whs" none).result
        (fun _ => "Traceback") =
      { signalSent := true, logStreams := [], stepResult := util_SUCCESS }) :=
  ⟨(c5_signal_iff_background_success storeFull config0 env_fail "https://cb.example/" "whs" none
      (fun _ => "Traceback")).2.1 PyErr.osError (by decide),
   (c5_signal_iff_background_success storeFull config0 env_trivial "https://cb.example/" "whs" none
      (fun _ => "Traceback")).2.2 (by decide)⟩

/-- C4: `create_project_hook` is idempotent: when the existing hook list
already contains a hook whose configured URL equals the desired URL, it
returns without issuing a creation POST; and across two successive
invocations for the same repository and callback URL (where a successful
first-run POST registers its payload URL), the second invocation is a no-op
and at most one creation POST is issued in total. -/
theorem c4_create_hook_idempotent (hooks0 : List String)
    (repo_name token webhook_url webhook_secret : String) :
    (hook_compare_url webhook_url ∈ hooks0 →
      create_project_hook (single_repo_hook_env hooks0) repo_name token webhook_url webhook_secret
        = Except.ok none) ∧
    second_run_result hooks0 repo_name token webhook_url webhook_secret = Except.ok none ∧
    reconcile_twice_posts hooks0 repo_name token webhook_url webhook_secret ≤ 1 := by
  have hrun : ∀ hooks : List String,
      create_project_hook (single_repo_hook_env hooks) repo_name token webhook_url webhook_secret
        = if hooks.any (fun u => u == hook_compare_url webhook_url)
          then Except.ok none
          else Except.ok (some (hook_data webhook_url webhook_secret)) := by
    intro hooks
    by_cases h : hooks.any (fun u => u == hook_compare_url webhook_url)
    · simp [create_project_hook, single_repo_hook_env, h, Except.bind, Bind.bind, pure, Except.pure]
    · simp [create_project_hook, single_repo_hook_env, h, Except.bind, Bind.bind, pure, Except.pure]
  by_cases h0 : hooks0.any (fun u => u == hook_compare_url webhook_url)
  · have h1 : create_project_hook (single_repo_hook_env hooks0)
        repo_name token webhook_url webhook_secret = Except.ok none := by
      rw [hrun hooks0, if_pos h0]
    have h2 : create_project_hook (single_repo_hook_env (gitea_apply_post hooks0 none))
        repo_name token webhook_url webhook_secret = Except.ok none := by
      rw [hrun, if_pos]
      simpa [gitea_apply_post] using h0
    refine ⟨fun _ => h1, ?_, ?_⟩
    · simp only [second_run_result, h1, h2]
    · simp only [reconcile_twice_posts, second_run_result, h1, h2, hook_posts]
      omega
  · have h1 : create_project_hook (single_repo_hook_env hooks0)
        repo_name token webhook_url webhook_secret
          = Except.ok (some (hook_data webhook_url webhook_secret)) := by
      rw [hrun hooks0, if_neg h0]
    have hmem : hook_compare_url webhook_url ∉ hooks0 := by
      intro hm
      exact h0 (List.any_eq_true.mpr ⟨_, hm, by simp⟩)
    have h2any : (gitea_apply_post hooks0
        (some (hook_data webhook_url webhook_secret))).any
          (fun u => u == hook_compare_url webhook_url) = true := by
      apply List.any_eq_true.mpr
      refine ⟨hook_compare_url webhook_url, ?_, by simp⟩
      simp [gitea_apply_post, hook_data, hook_config, hook_compare_url]
    have h2 : create_project_hook
        (single_repo_hook_env
          (gitea_apply_post hooks0 (some (hook_data webhook_url webhook_secret))))
        repo_name token webhook_url webhook_secret = Except.ok none := by
      rw [hrun, if_pos h2any]
    refine ⟨fun hm => absurd hm hmem, ?_, ?_⟩
    · simp only [second_run_result, h1, h2]
    · simp only [reconcile_twice_posts, second_run_result, h1, h2, hook_posts]
      omega

/-- C4 witness: with the desired hook already present, the call is a no-op;
and starting from an empty hook list, two successive invocations issue
exactly at most one POST, the second being a no-op. -/
theorem c4_witness :
    (create_project_hook (single_repo_hook_env [hook_compare_url "https://cb.example/"])
        "o/r" "tok" "https://cb.example/" "sec" = Except.ok none) ∧
    second_run_result [] "o/r" "tok" "https://cb.example/" "sec" = Except.ok none ∧
    reconcile_twice_posts [] "o/r" "tok" "https://cb.example/" "sec" ≤ 1 :=
  ⟨(c4_create_hook_idempotent [hook_compare_url "https://cb.example/"]
      "o/r" "tok" "https://cb.example/" "sec").1 (by decide),
   (c4_create_hook_idempotent [] "o/r" "tok" "https://cb.example/" "sec").2.1,
   (c4_create_hook_idempotent [] "o/r" "tok" "https://cb.example/" "sec").2.2⟩

/-- C1 counterexample: for collected records with full names
`["b/repo","a/repo","c/repo"]`, the JSON array written to disk keeps that
collection order — it is not sorted to `["a/repo","b/repo","c/repo"]` as the
claim states. -/
theorem c1_counterexample :
    cache_names (reload_projects storeFull config0 env_c1
        "https://cb.example/" "whs" none).cacheFile
      = some ["b/repo", "a/repo", "c/repo"] ∧
    (some ["b/repo", "a/repo", "c/repo"] : Option (List String))
      ≠ some ["a/repo", "b/repo", "c/repo"] := by
  exact ⟨by decide, by decide⟩

/-- C1 (amended): the snapshot persisted by a successful reload is exactly
the collected repository list in its original collection order — `reload_projects`
writes `json.dumps(repos)` without sorting; sorting by `full_name` happens
only at load time in `load_projects`. -/
theorem c1_amended_snapshot_collection_order (store : SecretStore) (config : GiteaConfig)
    (env : ReloadEnv) (webhook_url webhook_secret : String)
    (cache0 : Option (List RepoRecord)) (repos : List RepoRecord)
    (hrefresh : refresh_projects store config env = Except.ok repos)
    (hloop : (hookLoop store config env.hookEnv webhook_url webhook_secret repos).2 = none)
    (hwrite : env.write_ok = true) :
    (reload_projects store config env webhook_url webhook_secret cache0).cacheFile
      = some repos := by
  rcases hsplit : hookLoop store config env.hookEnv webhook_url webhook_secret repos with ⟨ns, eo⟩
  rw [hsplit] at hloop
  simp only at hloop
  subst hloop
  simp [reload_projects, hrefresh, hsplit, hwrite]

/-- C1 amended witness: the concrete unsorted listing is persisted verbatim. -/
theorem c1_amended_witness :
    (reload_projects storeFull config0 env_c1 "https://cb.example/" "whs" none).cacheFile
      = some [tag repoB, tag repoA, tag repoC] :=
  c1_amended_snapshot_collection_order storeFull config0 env_c1 "https://cb.example/" "whs"
    none [tag repoB, tag repoA, tag repoC] (by decide) (by decide) (by decide)

/-- C6: on any failure of the refresh unit of work the cache snapshot file is
left exactly as before the run, and the write is attempted only after the
enumeration succeeded and the hook loop finished without error. -/
theorem c6_failure_preserves_snapshot (store : SecretStore) (config : GiteaConfig)
    (env : ReloadEnv) (webhook_url webhook_secret : String)
    (cache0 : Option (List RepoRecord)) :
    (∀ e, (reload_projects store config env webhook_url webhook_secret cache0).result
        = Except.error e →
      (reload_projects store config env webhook_url webhook_secret cache0).cacheFile
        = cache0) ∧
    ((reload_projects store config env webhook_url webhook_secret cache0).writeAttempted
        = true →
      (refresh_projects store config env).isOk = true ∧
      ∀ repos, refresh_projects store config env = Except.ok repos →
        (hookLoop store config env.hookEnv webhook_url webhook_secret repos).2 = none) := by
  rcases hr : refresh_projects store config env with e0 | repos
  · refine ⟨fun e _ => ?_, fun hw => ?_⟩
    · simp [reload_projects, hr]
    · simp [reload_projects, hr] at hw
  · rcases hl : hookLoop store config env.hookEnv webhook_url webhook_secret repos with ⟨ns, eo⟩
    cases eo with
    | some e1 =>
      refine ⟨fun e _ => ?_, fun hw => ?_⟩
      · simp [reload_projects, hr, hl]
      · simp [reload_projects, hr, hl] at hw
    | none =>
      by_cases hw : env.write_ok
      · refine ⟨fun e he => ?_, fun _ => ⟨?_, ?_⟩⟩
        · exfalso
          simp [reload_projects, hr, hl, hw] at he
        · rfl
        · intro repos' hr'
          injection hr' with hrep
          subst hrep
          simp [hl]
      · refine ⟨fun e _ => ?_, fun _ => ⟨?_, ?_⟩⟩
        · simp [reload_projects, hr, hl, hw]
        · rfl
        · intro repos' hr'
          injection hr' with hrep
          subst hrep
          simp [hl]

/-- C6 witness: a failed enumeration leaves a prior snapshot intact, and a
successful trivial run reaches the write only with an error-free hook loop. -/
theorem c6_witness :
    (reload_projects storeFull config0 env_fail "https://cb.example/" "whs"
        (some [repoA])).cacheFile = some [repoA] ∧
    (hookLoop storeFull config0 env_trivial.hookEnv "https://cb.example/" "whs" []).2 = none :=
  ⟨(c6_failure_preserves_snapshot storeFull config0 env_fail "https://cb.example/" "whs"
      (some [repoA])).1 PyErr.osError (by decide),
   ((c6_failure_preserves_snapshot storeFull config0 env_trivial "https://cb.example/" "whs"
      none).2 (by decide)).2 [] (by decide)⟩

/-- Helper: one successful hook-loop iteration prepends its repository name
and continues with the rest. -/
theorem hookLoop_cons_ok (store : SecretStore) (config : GiteaConfig) (henv : HookEnv)
    (webhook_url webhook_secret : String) (repo : RepoRecord) (rest : List RepoRecord)
    (d : Option HookData)
    (h : hookStep store config henv webhook_url webhook_secret repo = Except.ok d) :
    hookLoop store config henv webhook_url webhook_secret (repo :: rest)
      = (repo.full_name :: (hookLoop store config henv webhook_url webhook_secret rest).1,
         (hookLoop store config henv webhook_url webhook_secret rest).2) := by
  simp [hookLoop, h]

/-- Helper: a failing hook-loop iteration aborts the loop at that repository. -/
theorem hookLoop_cons_error (store : SecretStore) (config : GiteaConfig) (henv : HookEnv)
    (webhook_url webhook_secret : String) (repo : RepoRecord) (rest : List RepoRecord)
    (e : PyErr)
    (h : hookStep store config henv webhook_url webhook_secret repo = Except.error e) :
    hookLoop store config henv webhook_url webhook_secret (repo :: rest)
      = ([repo.full_name], some e) := by
  simp [hookLoop, h]

/-- Helper: when every repository before `r` reconciles without error and
`r`'s reconciliation fails, the loop processes exactly the prefix and `r`. -/
theorem hookLoop_append_error (store : SecretStore) (config : GiteaConfig) (henv : HookEnv)
    (webhook_url webhook_secret : String) (pre : List RepoRecord) (r : RepoRecord)
    (rest : List RepoRecord) (e : PyErr)
    (hpre : ∀ p ∈ pre, (hookStep store config henv webhook_url webhook_secret p).isOk = true)
    (hr : hookStep store config henv webhook_url webhook_secret r = Except.error e) :
    hookLoop store config henv webhook_url webhook_secret (pre ++ r :: rest)
      = (pre.map RepoRecord.full_name ++ [r.full_name], some e) := by
  induction pre with
  | nil =>
    simpa using hookLoop_cons_error store config henv webhook_url webhook_secret r rest e hr
  | cons p ps ih =>
    have hp := hpre p (by simp)
    rcases hd : hookStep store config henv webhook_url webhook_secret p with e' | d
    · rw [hd] at hp
      exact Bool.noConfusion hp
    · have hcons := hookLoop_cons_ok store config henv webhook_url webhook_secret p
        (ps ++ r :: rest) d hd
      rw [List.cons_append, hcons, ih (fun q hq => hpre q (by simp [hq]))]
      simp

/-- C2 counterexample: with two collected repositories where the hook fetch
fails for `a/x`, the loop does not continue — `b/y` is never reconciled, the
snapshot write does not occur, and the run fails. -/
theorem c2_counterexample :
    "b/y" ∉ (reload_projects storeFull config0 env_c2
        "https://cb.example/" "whs" none).hooksReconciled ∧
    (reload_projects storeFull config0 env_c2
        "https://cb.example/" "whs" none).writeAttempted = false ∧
    (reload_projects storeFull config0 env_c2
        "https://cb.example/" "whs" none).cacheFile = none ∧
    (reload_projects storeFull config0 env_c2
        "https://cb.example/" "whs" none).result = Except.error PyErr.osError := by
  exact ⟨by decide, by decide, by decide, by decide⟩

/-- C2 (amended): a `create_project_hook` failure is NOT contained to that
repository: the iteration aborts there, repositories after it are never
reconciled, the snapshot write does not occur and the cache file is left
unchanged, and the step fails with that error. -/
theorem c2_amended_hook_failure_aborts (store : SecretStore) (config : GiteaConfig)
    (env : ReloadEnv) (webhook_url webhook_secret : String)
    (cache0 : Option (List RepoRecord)) (pre : List RepoRecord) (r : RepoRecord)
    (rest : List RepoRecord) (e : PyErr)
    (hrefresh : refresh_projects store config env = Except.ok (pre ++ r :: rest))
    (hpre : ∀ p ∈ pre,
      (hookStep store config env.hookEnv webhook_url webhook_secret p).isOk = true)
    (hr : hookStep store config env.hookEnv webhook_url webhook_secret r = Except.error e) :
    (reload_projects store config env webhook_url webhook_secret cache0).hooksReconciled
      = pre.map RepoRecord.full_name ++ [r.full_name] ∧
    (reload_projects store config env webhook_url webhook_secret cache0).writeAttempted
      = false ∧
    (reload_projects store config env webhook_url webhook_secret cache0).cacheFile = cache0 ∧
    (reload_projects store config env webhook_url webhook_secret cache0).result
      = Except.error e := by
  have hl := hookLoop_append_error store config env.hookEnv webhook_url webhook_secret
    pre r rest e hpre hr
  refine ⟨?_, ?_, ?_, ?_⟩ <;> simp [reload_projects, hrefresh, hl]

/-- C2 amended witness: in the concrete two-repository environment the loop
stops at `a/x` and nothing is written. -/
theorem c2_amended_witness :
    (reload_projects storeFull config0 env_c2
        "https://cb.example/" "whs" none).hooksReconciled = ["a/x"] ∧
    (reload_projects storeFull config0 env_c2
        "https://cb.example/" "whs" none).writeAttempted = false ∧
    (reload_projects storeFull config0 env_c2
        "https://cb.example/" "whs" none).cacheFile = none ∧
    (reload_projects storeFull config0 env_c2
        "https://cb.example/" "whs" none).result = Except.error PyErr.osError :=
  c2_amended_hook_failure_aborts storeFull config0 env_c2 "https://cb.example/" "whs" none
    [] (tagE repoAX) [tagE repoBY] PyErr.osError (by decide) (by simp) (by decide)

/-- Helper: case-split form of `refresh_step` (the `try`/`except OSError`
body written as nested matches; they agree because `read_secret_file` never
raises `OSError`). -/
theorem refresh_step_eq (store : SecretStore) (config : GiteaConfig) (env : ReloadEnv)
    (repos : List RepoRecord) (repo : RepoRecord) :
    refresh_step store config env repos repo
      = if repo.admin = false then Except.ok repos
        else
          match read_secret_file store config.token_secret_name with
          | Except.error e => Except.error e
          | Except.ok _ =>
            match env.fetchTopics repo.owner_login repo.name with
            | Except.ok topics => Except.ok (repos ++ [{ repo with topics := some topics }])
            | Except.error PyErr.osError => Except.ok repos
            | Except.error e => Except.error e := by
  unfold refresh_step read_secret_file
  cases hadm : repo.admin
  · rfl
  · cases hsec : store.secrets config.token_secret_name with
    | none => rfl
    | some tok =>
      cases hft : env.fetchTopics repo.owner_login repo.name with
      | ok ts => rfl
      | error e => cases e <;> rfl

/-- Helper: folding the refresh loop body over admin repositories whose topic
fetches succeed appends exactly those repositories' names, in order. -/
theorem foldlM_refresh_ok (store : SecretStore) (config : GiteaConfig) (env : ReloadEnv)
    (tok : String)
    (htok : read_secret_file store config.token_secret_name = Except.ok tok)
    (xs : List RepoRecord)
    (hgood : ∀ r ∈ xs, r.admin = true ∧
      (env.fetchTopics r.owner_login r.name).isOk = true) :
    ∀ acc, ∃ l, List.foldlM (refresh_step store config env) acc xs = Except.ok l ∧
      l.map RepoRecord.full_name
        = acc.map RepoRecord.full_name ++ xs.map RepoRecord.full_name := by
  induction xs with
  | nil =>
    intro acc
    exact ⟨acc, rfl, by simp⟩
  | cons x xs ih =>
    intro acc
    obtain ⟨hadm, hft⟩ := hgood x (by simp)
    rcases hts : env.fetchTopics x.owner_login x.name with e | ts
    · rw [hts] at hft
      exact absurd hft (by simp [Except.isOk, Except.toBool])
    · have hstep : refresh_step store config env acc x
          = Except.ok (acc ++ [{ x with topics := some ts }]) := by
        rw [refresh_step_eq]
        simp [hadm, htok, hts]
      obtain ⟨l, hl, hnames⟩ := ih (fun r hr => hgood r (by simp [hr]))
        (acc ++ [{ x with topics := some ts }])
      refine ⟨l, ?_, ?_⟩
      · rw [List.foldlM_cons, hstep]
        exact hl
      · rw [hnames]
        simp

/-- Helper: computed form of `create_project_hook` once the hook-list fetch
result is known. -/
theorem create_project_hook_eq (henv : HookEnv)
    (repo_name token webhook_url webhook_secret : String) (hs : List String)
    (hfh : henv.fetchHooks repo_name = Except.ok hs) :
    create_project_hook henv repo_name token webhook_url webhook_secret
      = if hs.any (fun u => u == hook_compare_url webhook_url)
        then Except.ok none
        else (henv.postHook repo_name).map
          (fun _ => some (hook_data webhook_url webhook_secret)) := by
  by_cases h : hs.any (fun u => u == hook_compare_url webhook_url)
  · simp [create_project_hook, hfh, h, Except.bind, Bind.bind, pure, Except.pure]
  · rcases hp : henv.postHook repo_name with e | u
    · simp [create_project_hook, hfh, h, hp, Except.bind, Bind.bind, pure, Except.pure,
        Except.map]
    · simp [create_project_hook, hfh, h, hp, Except.bind, Bind.bind, pure, Except.pure,
        Except.map]

/-- Helper: when the token is readable, every hook-list fetch succeeds and
every creation POST succeeds, the hook loop finishes without error. -/
theorem hookLoop_no_error (store : SecretStore) (config : GiteaConfig) (henv : HookEnv)
    (webhook_url webhook_secret : String) (tok : String)
    (htok : read_secret_file store config.token_secret_name = Except.ok tok)
    (hhooks : ∀ n, (henv.fetchHooks n).isOk = true)
    (hpost : ∀ n, henv.postHook n = Except.ok ()) (repos : List RepoRecord) :
    (hookLoop store config henv webhook_url webhook_secret repos).2 = none := by
  induction repos with
  | nil => rfl
  | cons repo rest ih =>
    rcases hfh : henv.fetchHooks repo.full_name with e | hs
    · have hh := hhooks repo.full_name
      rw [hfh] at hh
      exact absurd hh (by simp [Except.isOk, Except.toBool])
    · have hstep : hookStep store config henv webhook_url webhook_secret repo
          = create_project_hook henv repo.full_name tok webhook_url webhook_secret := by
        simp [hookStep, htok, Except.bind, Bind.bind]
      have hcreate := create_project_hook_eq henv repo.full_name tok webhook_url
        webhook_secret hs hfh
      by_cases hany : hs.any (fun u => u == hook_compare_url webhook_url)
      · have hok : hookStep store config henv webhook_url webhook_secret repo
            = Except.ok none := by
          rw [hstep, hcreate, if_pos hany]
        rw [hookLoop_cons_ok store config henv webhook_url webhook_secret repo rest none hok]
        simpa using ih
      · have hok : hookStep store config henv webhook_url webhook_secret repo
            = Except.ok (some (hook_data webhook_url webhook_secret)) := by
          rw [hstep, hcreate, if_neg hany, hpost repo.full_name]
          rfl
        rw [hookLoop_cons_ok store config henv webhook_url webhook_secret repo rest
          (some (hook_data webhook_url webhook_secret)) hok]
        simpa using ih

/-- C7: a failing topic lookup for one admin-eligible repository skips only
that repository: the refresh output names exactly the other repositories in
listing order, the snapshot is written with those survivors, and the step
reports success. -/
theorem c7_topic_failure_contained (store : SecretStore) (config : GiteaConfig)
    (env : ReloadEnv) (webhook_url webhook_secret : String)
    (cache0 : Option (List RepoRecord)) (tb : PyErr → String)
    (pre : List RepoRecord) (bad : RepoRecord) (post : List RepoRecord) (tok : String)
    (htok : read_secret_file store config.token_secret_name = Except.ok tok)
    (hlist : env.listing = Except.ok (pre ++ bad :: post))
    (hgood : ∀ r ∈ pre ++ post, r.admin = true ∧
      (env.fetchTopics r.owner_login r.name).isOk = true)
    (hbad : env.fetchTopics bad.owner_login bad.name = Except.error PyErr.osError)
    (hhooks : ∀ n, (env.hookEnv.fetchHooks n).isOk = true)
    (hpost : ∀ n, env.hookEnv.postHook n = Except.ok ())
    (hwrite : env.write_ok = true) :
    (refresh_projects store config env).map (List.map RepoRecord.full_name)
        = Except.ok (pre.map RepoRecord.full_name ++ post.map RepoRecord.full_name) ∧
    cache_names (reload_projects store config env webhook_url webhook_secret cache0).cacheFile
        = some (pre.map RepoRecord.full_name ++ post.map RepoRecord.full_name) ∧
    (ReloadGiteaProjects.run
        (reload_projects store config env webhook_url webhook_secret cache0).result
        tb).stepResult = util_SUCCESS := by
  have hrp : refresh_projects store config env
      = List.foldlM (refresh_step store config env) [] (pre ++ bad :: post) := by
    simp [refresh_projects, htok, hlist, Except.bind, Bind.bind]
  obtain ⟨l1, hl1, hn1⟩ := foldlM_refresh_ok store config env tok htok pre
    (fun r hr => hgood r (List.mem_append.mpr (Or.inl hr))) []
  have hskip : refresh_step store config env l1 bad = Except.ok l1 := by
    rw [refresh_step_eq]
    by_cases hadm : bad.admin = false
    · rw [if_pos hadm]
    · rw [if_neg hadm, htok, hbad]
  obtain ⟨l2, hl2, hn2⟩ := foldlM_refresh_ok store config env tok htok post
    (fun r hr => hgood r (List.mem_append.mpr (Or.inr hr))) l1
  have hfold : List.foldlM (refresh_step store config env) [] (pre ++ bad :: post)
      = Except.ok l2 := by
    rw [List.foldlM_append, hl1]
    show List.foldlM (refresh_step store config env) l1 (bad :: post) = Except.ok l2
    rw [List.foldlM_cons, hskip]
    exact hl2
  have hrefresh : refresh_projects store config env = Except.ok l2 := by
    rw [hrp, hfold]
  have hnames : l2.map RepoRecord.full_name
      = pre.map RepoRecord.full_name ++ post.map RepoRecord.full_name := by
    rw [hn2, hn1]
    simp
  have hloop := hookLoop_no_error store config env.hookEnv webhook_url webhook_secret tok
    htok hhooks hpost l2
  have hout : reload_projects store config env webhook_url webhook_secret cache0
      = { cacheFile := some l2
          hooksReconciled :=
            (hookLoop store config env.hookEnv webhook_url webhook_secret l2).1
          writeAttempted := true
          result := Except.ok () } := by
    rcases hsplit : hookLoop store config env.hookEnv webhook_url webhook_secret l2
      with ⟨ns, eo⟩
    rw [hsplit] at hloop
    simp only at hloop
    subst hloop
    simp [reload_projects, hrefresh, hsplit, hwrite]
  refine ⟨?_, ?_, ?_⟩
  · simp [hrefresh, Except.map, hnames]
  · rw [hout]
    simp [cache_names, hnames]
  · rw [hout]
    rfl

/-- C7 witness: five eligible repositories, the topic lookup for `o3/r3`
fails, the snapshot contains the other four and the step succeeds. -/
theorem c7_witness :
    (refresh_projects storeFull config0 env_c7).map (List.map RepoRecord.full_name)
        = Except.ok ["o1/r1", "o2/r2", "o4/r4", "o5/r5"] ∧
    cache_names (reload_projects storeFull config0 env_c7
        "https://cb.example/" "whs" none).cacheFile
        = some ["o1/r1", "o2/r2", "o4/r4", "o5/r5"] ∧
    (ReloadGiteaProjects.run (reload_projects storeFull config0 env_c7
        "https://cb.example/" "whs" none).result tb0).stepResult = util_SUCCESS :=
  c7_topic_failure_contained storeFull config0 env_c7 "https://cb.example/" "whs" none tb0
    [repo1, repo2] repo3 [repo4, repo5] "tok"
    (by decide) (by decide) (by decide) (by decide) (fun _ => rfl) (fun _ => rfl) rfl

/-- Helper: every record a successful refresh-loop iteration adds either was
already accumulated or is an admin record with its topics spliced in. -/
theorem refresh_step_sound (store : SecretStore) (config : GiteaConfig) (env : ReloadEnv)
    (acc : List RepoRecord) (x : RepoRecord) (acc' : List RepoRecord)
    (h : refresh_step store config env acc x = Except.ok acc') :
    ∀ q ∈ acc', q ∈ acc ∨ (q.admin = true ∧ q.topics.isSome = true) := by
  rw [refresh_step_eq] at h
  by_cases hadm : x.admin = false
  · rw [if_pos hadm] at h
    injection h with h
    subst h
    exact fun q hq => Or.inl hq
  · rw [if_neg hadm] at h
    have hadm' : x.admin = true := by
      cases hx : x.admin
      · exact absurd hx hadm
      · rfl
    rcases hsec : read_secret_file store config.token_secret_name with e | tok
    · rw [hsec] at h
      exact Except.noConfusion h
    · rw [hsec] at h
      rcases hft : env.fetchTopics x.owner_login x.name with e | ts
      · rw [hft] at h
        cases e
        · injection h with h
          subst h
          exact fun q hq => Or.inl hq
        · exact Except.noConfusion h
        · exact Except.noConfusion h
      · rw [hft] at h
        injection h with h
        subst h
        intro q hq
        rcases List.mem_append.mp hq with hq1 | hq2
        · exact Or.inl hq1
        · have hq3 : q = { x with topics := some ts } := by simpa using hq2
          subst hq3
          exact Or.inr ⟨hadm', rfl⟩

/-- Helper: every record in a successful refresh fold either was accumulated
before the fold or is an enriched admin record. -/
theorem foldlM_refresh_mem (store : SecretStore) (config : GiteaConfig) (env : ReloadEnv) :
    ∀ (xs acc l : List RepoRecord),
      List.foldlM (refresh_step store config env) acc xs = Except.ok l →
      ∀ r ∈ l, r ∈ acc ∨ (r.admin = true ∧ r.topics.isSome = true) := by
  intro xs
  induction xs with
  | nil =>
    intro acc l h r hr
    have hacc : acc = l := by simpa [pure, Except.pure] using h
    subst hacc
    exact Or.inl hr
  | cons x xs ih =>
    intro acc l h r hr
    rcases hstep : refresh_step store config env acc x with e | acc'
    · rw [List.foldlM_cons, hstep] at h
      exact absurd h (by simp [Except.bind, Bind.bind])
    · rw [List.foldlM_cons, hstep] at h
      have h' : List.foldlM (refresh_step store config env) acc' xs = Except.ok l := h
      rcases ih acc' l h' r hr with hmem | hgood
      · rcases refresh_step_sound store config env acc x acc' hstep r hmem with hmem2 | hgood2
        · exact Or.inl hmem2
        · exact Or.inr hgood2
      · exact Or.inr hgood

/-- Helper: a successful `refresh_projects` yields only admin records with
their topics attached. -/
theorem refresh_projects_sound (store : SecretStore) (config : GiteaConfig)
    (env : ReloadEnv) (l : List RepoRecord)
    (h : refresh_projects store config env = Except.ok l) :
    ∀ r ∈ l, r.admin = true ∧ r.topics.isSome = true := by
  rcases hsec : read_secret_file store config.token_secret_name with e | tok
  · have hr0 : refresh_projects store config env = Except.error e := by
      simp [refresh_projects, hsec, Except.bind, Bind.bind]
    rw [hr0] at h
    exact Except.noConfusion h
  · rcases hlist : env.listing with e | listing
    · have hr : refresh_projects store config env = Except.error e := by
        simp [refresh_projects, hsec, hlist, Except.bind, Bind.bind]
      rw [hr] at h
      exact Except.noConfusion h
    · have hrp : refresh_projects store config env
          = List.foldlM (refresh_step store config env) [] listing := by
        simp [refresh_projects, hsec, hlist, Except.bind, Bind.bind]
      rw [hrp] at h
      intro r hr
      rcases foldlM_refresh_mem store config env listing [] l h r hr with hin | hgood
      · exact absurd hin (List.not_mem_nil r)
      · exact hgood

/-- Helper: the hook loop only ever reconciles names drawn from the list it
iterates over. -/
theorem hookLoop_names_subset (store : SecretStore) (config : GiteaConfig) (henv : HookEnv)
    (webhook_url webhook_secret : String) :
    ∀ repos, (hookLoop store config henv webhook_url webhook_secret repos).1
      ⊆ repos.map RepoRecord.full_name := by
  intro repos
  induction repos with
  | nil =>
    intro a ha
    exact absurd ha (List.not_mem_nil a)
  | cons repo rest ih =>
    intro a ha
    rcases hstep : hookStep store config henv webhook_url webhook_secret repo with e | d
    · rw [hookLoop_cons_error store config henv webhook_url webhook_secret repo rest e hstep]
        at ha
      simp at ha
      subst ha
      simp
    · rw [hookLoop_cons_ok store config henv webhook_url webhook_secret repo rest d hstep]
        at ha
      simp at ha
      rcases ha with ha1 | ha2
      · subst ha1
        simp
      · simp only [List.map_cons]
        exact List.mem_cons_of_mem _ (ih ha2)

/-- C8: a record without admin permission never appears in the refresh output
and is never passed to hook reconciliation; every output record has admin
permission and carries an attached topics list. -/
theorem c8_admin_exclusion (store : SecretStore) (config : GiteaConfig) (env : ReloadEnv)
    (webhook_url webhook_secret : String) (cache0 : Option (List RepoRecord))
    (l : List RepoRecord)
    (h : refresh_projects store config env = Except.ok l) :
    (∀ r ∈ l, r.admin = true ∧ r.topics.isSome = true) ∧
    (∀ r : RepoRecord, r.admin = false → r ∉ l) ∧
    (reload_projects store config env webhook_url webhook_secret cache0).hooksReconciled
      ⊆ l.map RepoRecord.full_name := by
  have hsound := refresh_projects_sound store config env l h
  refine ⟨hsound, ?_, ?_⟩
  · intro r hradm hrl
    have := (hsound r hrl).1
    rw [hradm] at this
    exact Bool.noConfusion this
  · have hrec : (reload_projects store config env webhook_url webhook_secret
        cache0).hooksReconciled
        = (hookLoop store config env.hookEnv webhook_url webhook_secret l).1 := by
      rcases hl : hookLoop store config env.hookEnv webhook_url webhook_secret l
        with ⟨ns, eo⟩
      cases eo with
      | some e1 => simp [reload_projects, h, hl]
      | none => by_cases hw : env.write_ok <;> simp [reload_projects, h, hl, hw]
    rw [hrec]
    exact hookLoop_names_subset store config env.hookEnv webhook_url webhook_secret l

/-- C8 witness: with one admin and one non-admin repository listed, the
output contains only the enriched admin record, the non-admin record is
excluded, and only the admin repository is passed to hook reconciliation. -/
theorem c8_witness :
    ((tagE repoAX).admin = true ∧ (tagE repoAX).topics.isSome = true) ∧
    repoNA ∉ [tagE repoAX] ∧
    "a/x" ∈ [tagE repoAX].map RepoRecord.full_name :=
  ⟨(c8_admin_exclusion storeFull config0 env_c8 "https://cb.example/" "whs" none
      [tagE repoAX] (by decide)).1 (tagE repoAX) (by decide),
   (c8_admin_exclusion storeFull config0 env_c8 "https://cb.example/" "whs" none
      [tagE repoAX] (by decide)).2.1 repoNA (by decide),
   (c8_admin_exclusion storeFull config0 env_c8 "https://cb.example/" "whs" none
      [tagE repoAX] (by decide)).2.2 (by decide)⟩

/-- C9 counterexample: with the API token secret absent (webhook secret
present), constructing the backend succeeds — contrary to the claim that a
missing required secret is fatal at construction — and the subsequent refresh
fails precisely because of the missing secret. -/
theorem c9_counterexample :
    GiteaBackend.init storeNoToken config0
        = Except.ok { config := config0, webhook_secret := "whs" } ∧
    refresh_projects storeNoToken config0 env_trivial
        = Except.error PyErr.secretMissing := by
  exact ⟨by decide, by decide⟩

/-- Helper: folding the refresh loop never produces a missing-secret error
when the token is readable and topic fetches never report one. -/
theorem foldlM_refresh_no_secret_err (store : SecretStore) (config : GiteaConfig)
    (env : ReloadEnv) (tok : String)
    (htok : read_secret_file store config.token_secret_name = Except.ok tok)
    (hft : ∀ o n, env.fetchTopics o n ≠ Except.error PyErr.secretMissing) :
    ∀ (xs acc : List RepoRecord),
      List.foldlM (refresh_step store config env) acc xs
        ≠ Except.error PyErr.secretMissing := by
  intro xs
  induction xs with
  | nil =>
    intro acc h
    exact Except.noConfusion (show Except.ok acc = Except.error PyErr.secretMissing from h)
  | cons x xs ih =>
    intro acc h
    rw [List.foldlM_cons] at h
    rcases hstep : refresh_step store config env acc x with e | acc'
    · rw [hstep] at h
      have he : e = PyErr.secretMissing := by
        have h' : Except.error e = (Except.error PyErr.secretMissing : Except PyErr (List RepoRecord)) := h
        injection h'
      subst he
      rw [refresh_step_eq] at hstep
      by_cases hadm : x.admin = false
      · rw [if_pos hadm] at hstep
        exact Except.noConfusion hstep
      · rw [if_neg hadm, htok] at hstep
        rcases hft2 : env.fetchTopics x.owner_login x.name with e' | ts
        · rw [hft2] at hstep
          cases e'
          · exact Except.noConfusion hstep
          · injection hstep with h2
            exact PyErr.noConfusion h2
          · exact hft x.owner_login x.name hft2
        · rw [hft2] at hstep
          exact Except.noConfusion hstep
    · rw [hstep] at h
      exact ih acc' h

/-- C9 (amended): only the webhook signing secret is read at backend
construction, so a missing webhook secret is fatal there; the API token is
read at refresh time, so a missing token makes the refresh itself fail with a
missing-secret error, while with the token present a refresh never fails with
a missing-secret error (the network layer reads no secrets). -/
theorem c9_amended_secret_timing (store : SecretStore) (config : GiteaConfig)
    (env : ReloadEnv) :
    (store.secrets config.webhook_secret_name = none →
      GiteaBackend.init store config = Except.error PyErr.secretMissing) ∧
    (store.secrets config.token_secret_name = none →
      refresh_projects store config env = Except.error PyErr.secretMissing) ∧
    (∀ tok, store.secrets config.token_secret_name = some tok → NetworkOnly env →
      refresh_projects store config env ≠ Except.error PyErr.secretMissing) := by
  refine ⟨?_, ?_, ?_⟩
  · intro h
    simp [GiteaBackend.init, read_secret_file, h]
  · intro h
    simp [refresh_projects, read_secret_file, h, Except.bind, Bind.bind]
  · intro tok htok hnet hcontra
    obtain ⟨hlist, hft⟩ := hnet
    have htok' : read_secret_file store config.token_secret_name = Except.ok tok := by
      simp [read_secret_file, htok]
    rcases hl : env.listing with e | listing
    · have hr : refresh_projects store config env = Except.error e := by
        simp [refresh_projects, htok', hl, Except.bind, Bind.bind]
      rw [hr] at hcontra
      injection hcontra with h2
      subst h2
      exact hlist hl
    · have hr : refresh_projects store config env
          = List.foldlM (refresh_step store config env) [] listing := by
        simp [refresh_projects, htok', hl, Except.bind, Bind.bind]
      rw [hr] at hcontra
      exact foldlM_refresh_no_secret_err store config env tok htok' hft listing [] hcontra

/-- C9 amended witness: missing webhook secret fails construction; missing
token fails refresh with a missing-secret error; with both present a refresh
cannot fail with a missing-secret error. -/
theorem c9_amended_witness :
    GiteaBackend.init storeNoWebhook config0 = Except.error PyErr.secretMissing ∧
    refresh_projects storeNoToken config0 env_trivial
        = Except.error PyErr.secretMissing ∧
    refresh_projects storeFull config0 env_trivial
        ≠ Except.error PyErr.secretMissing :=
  ⟨(c9_amended_secret_timing storeNoWebhook config0 env_trivial).1 (by decide),
   (c9_amended_secret_timing storeNoToken config0 env_trivial).2.1 (by decide),
   (c9_amended_secret_timing storeFull config0 env_trivial).2.2 "tok" (by decide)
     ⟨fun h => Except.noConfusion h, fun _ _ h => Except.noConfusion h⟩⟩

/-- Helper: a fallible filter whose predicate succeeds pointwise equals the
pure filter. -/
theorem filterE_eq_filter (p : RepoRecord → Except PyErr Bool) (q : RepoRecord → Bool) :
    ∀ l : List RepoRecord, (∀ x ∈ l, p x = Except.ok (q x)) →
      filterE p l = Except.ok (l.filter q) := by
  intro l
  induction l with
  | nil =>
    intro _
    rfl
  | cons x xs ih =>
    intro h
    have hx := h x (by simp)
    have hxs := ih (fun y hy => h y (by simp [hy]))
    simp [filterE, hx, hxs, Except.bind, Bind.bind, pure, Except.pure, List.filter_cons]

/-- Helper: the load filter predicate on a record whose topics key is present
computes the Boolean topic test. -/
theorem load_pred_some (t : String) (r : RepoRecord) (h : r.topics.isSome = true) :
    load_pred (some t) r = Except.ok (topic_filter t r) := by
  rcases hr : r.topics with _ | ts
  · rw [hr] at h
    exact Bool.noConfusion h
  · simp [load_pred, GiteaProject.topics, hr, topic_filter, Except.bind, Bind.bind,
      pure, Except.pure]

/-- C3 counterexample: with no required topic configured, `load_projects`
returns the empty list even though the cache holds a record — not all
records, as the claim states (the filter predicate `topic is not None and
topic in project.topics` is false for every record when `topic` is `None`). -/
theorem c3_counterexample :
    GiteaBackend.load_projects config_no_topic (some [cacheA]) = Except.ok [] ∧
    (Except.ok [] : Except PyErr (List RepoRecord)) ≠ Except.ok [cacheA] := by
  exact ⟨by decide, by decide⟩

/-- C3 (amended): `load_projects` returns the empty sequence when the
snapshot file does not exist; when a required topic is configured it returns
the parsed records sorted by `full_name` and restricted to records whose
topics contain that topic; when no topic is configured it returns the empty
sequence (not all records). -/
theorem c3_amended_load_characterization (config : GiteaConfig) :
    (GiteaBackend.load_projects config none = Except.ok []) ∧
    (config.topic = none → ∀ repos,
      GiteaBackend.load_projects config (some repos) = Except.ok []) ∧
    (∀ t repos, config.topic = some t → (∀ r ∈ repos, r.topics.isSome = true) →
      GiteaBackend.load_projects config (some repos)
          = Except.ok ((List.insertionSort repoLE repos).filter (topic_filter t)) ∧
      List.Sorted repoLE ((List.insertionSort repoLE repos).filter (topic_filter t)) ∧
      ((List.insertionSort repoLE repos).filter (topic_filter t)).Perm
        (repos.filter (topic_filter t))) := by
  refine ⟨rfl, ?_, ?_⟩
  · intro h repos
    have hfe : filterE (load_pred config.topic) (List.insertionSort repoLE repos)
        = Except.ok ((List.insertionSort repoLE repos).filter (fun _ => false)) := by
      apply filterE_eq_filter
      intro x _
      rw [h]
      rfl
    simp only [GiteaBackend.load_projects, hfe]
    simp
  · intro t repos hconf hall
    have hsorted_mem : ∀ r ∈ List.insertionSort repoLE repos, r.topics.isSome = true := by
      intro r hr
      exact hall r ((List.perm_insertionSort repoLE repos).mem_iff.mp hr)
    have heq : filterE (load_pred (some t)) (List.insertionSort repoLE repos)
        = Except.ok ((List.insertionSort repoLE repos).filter (topic_filter t)) :=
      filterE_eq_filter _ _ _ (fun x hx => load_pred_some t x (hsorted_mem x hx))
    refine ⟨?_, ?_, ?_⟩
    · simp only [GiteaBackend.load_projects, hconf, heq]
    · exact (List.sorted_insertionSort repoLE repos).filter _
    · exact (List.perm_insertionSort repoLE repos).filter _

/-- C3 amended witness: topic filter `build-with-buildbot` over three cached
records, two tagged and one not, returns exactly the two tagged records
sorted by `full_name`. -/
theorem c3_amended_witness :
    GiteaBackend.load_projects config0 (some [cacheB, cacheA, cacheC])
        = Except.ok ((List.insertionSort repoLE [cacheB, cacheA, cacheC]).filter
            (topic_filter "build-with-buildbot")) ∧
    GiteaBackend.load_projects config0 (some [cacheB, cacheA, cacheC])
        = Except.ok [cacheA, cacheB] :=
  ⟨((c3_amended_load_characterization config0).2.2 "build-with-buildbot"
      [cacheB, cacheA, cacheC] rfl (by decide)).1,
   by decide⟩

end Theorems

end BuildbotNix
